import Mathlib

/-!
# Task-management client: state reconciliation and form lifecycle

A shallow embedding of the three React components of the client
(`Dashboard.js`, `Login.js`, `TaskForm.js`).

Modelling conventions.

* A component's `useState` cells become the fields of a state structure.  A
  handler is a function from the state captured by the render that created
  the handler to the state after all of its `set...` calls have been
  applied, together with the list of externally visible effects it performed
  (HTTP requests, dialogs, console output, callbacks), in program order.
* What the environment answers (the `window.confirm` dialog, the settlement
  of an `axios` promise) is an explicit argument of the handler.
* JavaScript objects are records whose fields are optional (`none` is
  `undefined`).  Identifiers are JSON scalars (integers or strings), on which
  `===` is structural equality.
-/

namespace TaskManagement

/-! ## Data model -/

/-- Identifier of a task: the `_id` field, a JSON number or string. -/
inductive Ident where
  | num (n : Int)
  | str (s : String)
  deriving DecidableEq, Repr

/-- Text of an identifier when it is spliced into a template literal. -/
def Ident.render : Ident → String
  | .num n => toString n
  | .str s => s

/-- Task record as the server sends it.  Every field except `_id` may be
missing; `extra` holds whatever further fields the server adds. -/
structure Task where
  _id : Ident
  title : Option String := none
  description : Option String := none
  status : Option String := none
  priority : Option String := none
  dueDate : Option String := none
  extra : List (String × String) := []
  deriving DecidableEq, Repr

/-- Body of a failed response: `error.response.data`. -/
structure ErrorData where
  message : Option String
  deriving DecidableEq, Repr

/-- Response attached to a failed request: `error.response`. -/
structure ErrorResponse where
  data : Option ErrorData
  deriving DecidableEq, Repr

/-- Error with which an `axios` promise rejects.  `response` is missing on a
transport failure. -/
structure AxiosError where
  response : Option ErrorResponse
  deriving DecidableEq, Repr

/-- Settlement of an `axios` promise: resolved with `response.data`, or
rejected. -/
inductive Outcome (α : Type) where
  | ok (data : α)
  | fail (error : AxiosError)
  deriving DecidableEq, Repr

/-- The chain `error.response?.data?.message`. -/
def AxiosError.serverMessage (error : AxiosError) : Option String :=
  (error.response.bind (fun response => response.data)).bind (fun data => data.message)

/-- JavaScript `x || d` on an optional string: `undefined` and the empty
string are falsy. -/
def jsOr (x : Option String) (d : String) : String :=
  match x with
  | some s => if s = "" then d else s
  | none => d

/-- Fields of the credentials form of `Login`. -/
structure LoginForm where
  username : String
  email : String
  password : String
  deriving DecidableEq, Repr

/-- Identity returned by the authentication endpoints. -/
structure User where
  username : String
  profile : List (String × String) := []
  deriving DecidableEq, Repr

/-- Body of a successful authentication response. -/
structure AuthData where
  user : User
  token : String
  deriving DecidableEq, Repr

/-- Fields of the form of `TaskForm`.  `title` and `priority` are copied from
the record unguarded and can therefore be `undefined`. -/
structure TaskFormData where
  title : Option String
  description : String
  priority : Option String
  dueDate : String
  deriving DecidableEq, Repr

/-- Externally visible actions of the handlers. -/
inductive Effect where
  | preventDefault
  | confirm (text : String)
  | httpGet (url : String)
  | httpDelete (url : String)
  | httpPutStatus (url : String) (status : String)
  | httpPostAuth (url : String) (body : LoginForm)
  | httpPostTask (url : String) (body : TaskFormData)
  | httpPutTask (url : String) (body : TaskFormData)
  | consoleError (text : String) (error : AxiosError)
  | onLogin (user : User) (token : String)
  | onTaskCreated (task : Task)
  | onTaskUpdated (task : Task)
  deriving DecidableEq, Repr

/-! ## Dashboard.js -/

/-- State cells of `Dashboard`. -/
structure DashboardState where
  tasks : List Task
  showForm : Bool
  editingTask : Option Task
  loading : Bool
  deriving DecidableEq, Repr

/-- Values passed to `useState` in `Dashboard`. -/
def DashboardState.initial : DashboardState :=
  { tasks := [], showForm := false, editingTask := none, loading := true }

/-- Sequence of identifiers of the local collection. -/
def DashboardState.ids (st : DashboardState) : List Ident :=
  st.tasks.map (fun task => task._id)

/-- `fetchTasks`: GET the collection; store it on success, log on failure,
clear `loading` in either case. -/
def Dashboard.fetchTasks (st : DashboardState) (res : Outcome (List Task)) :
    DashboardState × List Effect :=
  match res with
  | .ok data =>
      ({ st with tasks := data, loading := false }, [.httpGet "/api/tasks"])
  | .fail error =>
      ({ st with loading := false },
        [.httpGet "/api/tasks", .consoleError "Error fetching tasks:" error])

/-- `handleTaskCreated`. -/
def Dashboard.handleTaskCreated (st : DashboardState) (newTask : Task) : DashboardState :=
  { st with tasks := newTask :: st.tasks, showForm := false }

/-- `handleTaskUpdated`. -/
def Dashboard.handleTaskUpdated (st : DashboardState) (updatedTask : Task) : DashboardState :=
  { st with
    tasks := st.tasks.map (fun task =>
      if task._id = updatedTask._id then updatedTask else task)
    editingTask := none }

/-- `handleDeleteTask`.  `confirmed` is the answer of `window.confirm`, `res`
the settlement of the DELETE request (consulted only when it is issued). -/
def Dashboard.handleDeleteTask (st : DashboardState) (taskId : Ident) (confirmed : Bool)
    (res : Outcome Unit) : DashboardState × List Effect :=
  if confirmed then
    match res with
    | .ok _ =>
        ({ st with tasks := st.tasks.filter (fun task => decide (task._id ≠ taskId)) },
          [.confirm "Are you sure you want to delete this task?",
           .httpDelete ("/api/tasks/" ++ taskId.render)])
    | .fail error =>
        (st,
          [.confirm "Are you sure you want to delete this task?",
           .httpDelete ("/api/tasks/" ++ taskId.render),
           .consoleError "Error deleting task:" error])
  else
    (st, [.confirm "Are you sure you want to delete this task?"])

/-- `handleStatusChange`.  `res` is the settlement of the PUT request. -/
def Dashboard.handleStatusChange (st : DashboardState) (taskId : Ident) (newStatus : String)
    (res : Outcome Task) : DashboardState × List Effect :=
  match res with
  | .ok data =>
      ({ st with tasks := st.tasks.map (fun task =>
            if task._id = taskId then data else task) },
        [.httpPutStatus ("/api/tasks/" ++ taskId.render) newStatus])
  | .fail error =>
      (st,
        [.httpPutStatus ("/api/tasks/" ++ taskId.render) newStatus,
         .consoleError "Error updating task status:" error])

/-- Condition under which `Dashboard` renders the editor:
`showForm || editingTask`. -/
def Dashboard.editorOpen (st : DashboardState) : Bool :=
  st.showForm || st.editingTask.isSome

/-! ## Login.js -/

/-- State cells of `Login`. -/
structure LoginState where
  isLogin : Bool
  formData : LoginForm
  error : String
  loading : Bool
  deriving DecidableEq, Repr

/-- Values passed to `useState` in `Login`. -/
def LoginState.initial : LoginState :=
  { isLogin := true
    formData := { username := "", email := "", password := "" }
    error := ""
    loading := false }

/-- The `onClick` of the login/register link: `setIsLogin(!isLogin)`. -/
def Login.toggleMode (st : LoginState) : LoginState :=
  { st with isLogin := !st.isLogin }

/-- State of `Login` while the request of `handleSubmit` is in flight. -/
def Login.handleSubmitPending (st : LoginState) : LoginState :=
  { st with loading := true, error := "" }

/-- `handleSubmit` of `Login`, run to completion.  `res` is the settlement of
the POST request. -/
def Login.handleSubmit (st : LoginState) (res : Outcome AuthData) :
    LoginState × List Effect :=
  let pending := Login.handleSubmitPending st
  let endpoint := if st.isLogin then "/api/auth/login" else "/api/auth/register"
  match res with
  | .ok data =>
      ({ pending with loading := false },
        [.preventDefault, .httpPostAuth endpoint st.formData, .onLogin data.user data.token])
  | .fail error =>
      ({ pending with
          error := jsOr error.serverMessage "An error occurred"
          loading := false },
        [.preventDefault, .httpPostAuth endpoint st.formData])

/-! ## TaskForm.js -/

/-- State cells of `TaskForm`. -/
structure TaskFormState where
  formData : TaskFormData
  loading : Bool
  error : String
  deriving DecidableEq, Repr

/-- Value passed to `useState` for `formData` in `TaskForm`. -/
def TaskForm.initialFormData : TaskFormData :=
  { title := some "", description := "", priority := some "medium", dueDate := "" }

/-- Values passed to `useState` in `TaskForm`. -/
def TaskFormState.initial : TaskFormState :=
  { formData := TaskForm.initialFormData, loading := false, error := "" }

/-- The expression `new Date(d).toISOString().split('T')[0]`.  `toISOString`
stands for `d ↦ new Date(d).toISOString()`, which throws (`none`) when `d`
is not a valid date. -/
def TaskForm.dateOnly (toISOString : String → Option String) (d : String) :
    Option String :=
  (toISOString d).map (fun iso => (iso.splitOn "T").headD "")

/-- The pre-fill effect `useEffect(..., [task])` applied to form data
`formData`.  The result is `none` when the effect throws. -/
def TaskForm.prefill (toISOString : String → Option String) (task : Option Task)
    (formData : TaskFormData) : Option TaskFormData :=
  match task with
  | none => some formData
  | some task =>
      let dueDate : Option String :=
        match task.dueDate with
        | some d => if d = "" then some "" else TaskForm.dateOnly toISOString d
        | none => some ""
      dueDate.map (fun dueDate =>
        { title := task.title
          description := jsOr task.description ""
          priority := task.priority
          dueDate := dueDate })

/-- Form data of a freshly mounted `TaskForm`: the initial value followed by
the pre-fill effect. -/
def TaskForm.mount (toISOString : String → Option String) (task : Option Task) :
    Option TaskFormData :=
  TaskForm.prefill toISOString task TaskForm.initialFormData

/-- `handleChange` of `TaskForm` for the control called `name`.  A name that
is not a field of the form leaves the four fields as they are. -/
def TaskForm.handleChange (formData : TaskFormData) (name value : String) :
    TaskFormData :=
  if name = "title" then { formData with title := some value }
  else if name = "description" then { formData with description := value }
  else if name = "priority" then { formData with priority := some value }
  else if name = "dueDate" then { formData with dueDate := value }
  else formData

/-- A sequence of `handleChange` events, oldest first. -/
def TaskForm.applyChanges (formData : TaskFormData) (edits : List (String × String)) :
    TaskFormData :=
  edits.foldl (fun fd edit => TaskForm.handleChange fd edit.1 edit.2) formData

/-- `handleSubmit` of `TaskForm`, run to completion.  `res` is the settlement
of the PUT (edit mode) or POST (create mode) request. -/
def TaskForm.handleSubmit (task : Option Task) (st : TaskFormState) (res : Outcome Task) :
    TaskFormState × List Effect :=
  let request : Effect :=
    match task with
    | some task => .httpPutTask ("/api/tasks/" ++ task._id.render) st.formData
    | none => .httpPostTask "/api/tasks" st.formData
  match res with
  | .ok data =>
      ({ st with loading := false, error := "" },
        [.preventDefault, request,
         match task with
         | some _ => .onTaskUpdated data
         | none => .onTaskCreated data])
  | .fail error =>
      ({ st with error := jsOr error.serverMessage "An error occurred", loading := false },
        [.preventDefault, request])

/-- Body of a task-creation or task-update request, if the effect is one. -/
def Effect.taskBody : Effect → Option TaskFormData
  | .httpPostTask _ body => some body
  | .httpPutTask _ body => some body
  | _ => none

/-! ## Shared list facts -/

/-- Replacing records by a record that carries the identifier being matched
keeps the sequence of identifiers. -/
theorem map_id_map_replace (tasks : List Task) (id : Ident) (r : Task) (hr : r._id = id) :
    (tasks.map (fun task => if task._id = id then r else task)).map (fun task => task._id) =
      tasks.map (fun task => task._id) := by
  rw [List.map_map]
  apply List.map_congr_left
  intro task _
  show (if task._id = id then r else task)._id = task._id
  by_cases h : task._id = id
  · rw [if_pos h, hr, h]
  · rw [if_neg h]

/-- A change to a control other than the priority control keeps the priority. -/
theorem handleChange_priority (formData : TaskFormData) (name value : String)
    (hname : name ≠ "priority") :
    (TaskForm.handleChange formData name value).priority = formData.priority := by
  unfold TaskForm.handleChange
  split_ifs <;> rfl

/-- Changes that never touch the priority control keep the priority. -/
theorem applyChanges_priority :
    ∀ (edits : List (String × String)) (formData : TaskFormData),
      (∀ edit ∈ edits, edit.1 ≠ "priority") →
      (TaskForm.applyChanges formData edits).priority = formData.priority
  | [], _, _ => rfl
  | edit :: edits, formData, h => by
    have hhead : edit.1 ≠ "priority" := h edit (List.mem_cons_self _ _)
    have htail : ∀ e ∈ edits, e.1 ≠ "priority" :=
      fun e he => h e (List.mem_cons_of_mem _ he)
    show (TaskForm.applyChanges (TaskForm.handleChange formData edit.1 edit.2) edits).priority = _
    rw [applyChanges_priority edits _ htail, handleChange_priority _ _ _ hhead]

theorem getElem?_map_ite (tasks : List Task) (id : Ident) (r : Task) (j : Nat) :
    (tasks.map (fun task => if task._id = id then r else task))[j]? =
      (tasks[j]?).map (fun task => if task._id = id then r else task) := by
  simp

/-- In a list without duplicates a value sits at one position only. -/
theorem nodup_position_unique {α : Type} {l : List α} (h : l.Nodup) {a : α} {i j : Nat}
    (hi : l[i]? = some a) (hj : l[j]? = some a) : i = j := by
  have hil : i < l.length := by
    by_contra hge
    rw [List.getElem?_eq_none (Nat.le_of_not_lt hge)] at hi
    cases hi
  have hjl : j < l.length := by
    by_contra hge
    rw [List.getElem?_eq_none (Nat.le_of_not_lt hge)] at hj
    cases hj
  rcases Nat.lt_trichotomy i j with hlt | heq | hgt
  · exact absurd (hi.trans hj.symm) (List.nodup_iff_getElem?_ne_getElem?.1 h i j hlt hjl)
  · exact heq
  · exact absurd (hj.trans hi.symm) (List.nodup_iff_getElem?_ne_getElem?.1 h j i hgt hil)

/-- Filtering out an identifier that occurs, and occurs once, shortens the
list by one. -/
theorem length_filter_ne_of_nodup (taskId : Ident) :
    ∀ tasks : List Task, (tasks.map (fun task => task._id)).Nodup →
      taskId ∈ tasks.map (fun task => task._id) →
      (tasks.filter (fun task => decide (task._id ≠ taskId))).length + 1 = tasks.length
  | [], _, hmem => by simp at hmem
  | t :: ts, hnodup, hmem => by
    rw [List.map_cons, List.nodup_cons] at hnodup
    by_cases ht : t._id = taskId
    · have hnot : ∀ u ∈ ts, decide (u._id ≠ taskId) = true := by
        intro u hu
        have : u._id ≠ taskId := by
          intro hEq
          exact hnodup.1 (List.mem_map.2 ⟨u, hu, hEq.trans ht.symm⟩)
        simpa using this
      have hfil : ts.filter (fun task => decide (task._id ≠ taskId)) = ts :=
        List.filter_eq_self.2 hnot
      rw [List.filter_cons_of_neg (by simp [ht]), hfil, List.length_cons]
    · have hmem2 : taskId ∈ ts.map (fun task => task._id) := by
        rcases List.mem_map.1 hmem with ⟨u, hu, hEq⟩
        rcases List.mem_cons.1 hu with rfl | hu2
        · exact absurd hEq ht
        · exact List.mem_map.2 ⟨u, hu2, hEq⟩
      have ih := length_filter_ne_of_nodup taskId ts hnodup.2 hmem2
      rw [List.filter_cons_of_pos (by simp [ht]), List.length_cons, ih, List.length_cons]

/-! ## Theorems -/

/-- C1. Edit reconciliation: when the identifiers of the collection are
pairwise distinct and the updated record carries the identifier of one of its
records, `handleTaskUpdated` keeps the length, there is a position `i` (the
one holding the matching identifier) such that position `i` holds the updated
record and every other position holds what it held before, `i` is the only
position holding the updated record, and `editingTask` is `null` afterwards
while `showForm` and `loading` are untouched. -/
theorem handleTaskUpdated_replaces_exactly_one (st : DashboardState) (updatedTask : Task)
    (hdistinct : st.ids.Nodup) (hmem : updatedTask._id ∈ st.ids) :
    (Dashboard.handleTaskUpdated st updatedTask).tasks.length = st.tasks.length ∧
    (∃ i, i < st.tasks.length ∧
      (st.tasks[i]?).map (fun task => task._id) = some updatedTask._id ∧
      (∀ j, (Dashboard.handleTaskUpdated st updatedTask).tasks[j]? =
        if j = i then some updatedTask else st.tasks[j]?) ∧
      (∀ j, (Dashboard.handleTaskUpdated st updatedTask).tasks[j]? = some updatedTask ↔ j = i)) ∧
    (Dashboard.handleTaskUpdated st updatedTask).editingTask = none ∧
    (Dashboard.handleTaskUpdated st updatedTask).showForm = st.showForm ∧
    (Dashboard.handleTaskUpdated st updatedTask).loading = st.loading := by
  refine ⟨by simp [Dashboard.handleTaskUpdated], ?_, rfl, rfl, rfl⟩
  obtain ⟨t, ht, hid⟩ := List.mem_map.1 hmem
  obtain ⟨i, hi, hget⟩ := List.getElem_of_mem ht
  have hi? : st.tasks[i]? = some t := by
    rw [List.getElem?_eq_getElem hi, hget]
  have key : ∀ j, (Dashboard.handleTaskUpdated st updatedTask).tasks[j]? =
      if j = i then some updatedTask else st.tasks[j]? := by
    intro j
    show (st.tasks.map _)[j]? = _
    rw [getElem?_map_ite]
    by_cases hj : j = i
    · subst hj
      simp [hi?, hid]
    · simp only [hj, if_false]
      cases hjt : st.tasks[j]? with
      | none => rfl
      | some u =>
        have hne : u._id ≠ updatedTask._id := by
          intro heq
          have h1 : st.ids[j]? = some u._id := by simp [DashboardState.ids, hjt]
          have h2 : st.ids[i]? = some u._id := by
            simp [DashboardState.ids, hi?, hid, heq]
          exact hj (nodup_position_unique hdistinct h1 h2)
        simp [hne]
  refine ⟨i, hi, by simp [hi?, hid], key, ?_⟩
  intro j
  rw [key j]
  by_cases hj : j = i
  · simp [hj]
  · simp only [hj, if_false, iff_false]
    intro hjt
    have h1 : st.ids[j]? = some updatedTask._id := by simp [DashboardState.ids, hjt]
    have h2 : st.ids[i]? = some updatedTask._id := by simp [DashboardState.ids, hi?, hid]
    exact hj (nodup_position_unique hdistinct h1 h2)

/-- Instance of C1: a two-record collection in which record `2` is edited. -/
theorem handleTaskUpdated_replaces_exactly_one_witness :
    (Dashboard.handleTaskUpdated
        { tasks := [{ _id := .num 1, title := some "a" }, { _id := .num 2, title := some "b" }]
          showForm := false
          editingTask := some { _id := .num 2, title := some "b" }
          loading := false }
        { _id := .num 2, title := some "c" }).tasks.length = 2 ∧
    (Dashboard.handleTaskUpdated
        { tasks := [{ _id := .num 1, title := some "a" }, { _id := .num 2, title := some "b" }]
          showForm := false
          editingTask := some { _id := .num 2, title := some "b" }
          loading := false }
        { _id := .num 2, title := some "c" }).tasks =
      [{ _id := .num 1, title := some "a" }, { _id := .num 2, title := some "c" }] :=
  ⟨(handleTaskUpdated_replaces_exactly_one
      { tasks := [{ _id := .num 1, title := some "a" }, { _id := .num 2, title := some "b" }]
        showForm := false
        editingTask := some { _id := .num 2, title := some "b" }
        loading := false }
      { _id := .num 2, title := some "c" } (by decide) (by decide)).1,
    by decide⟩

/-- C2, as stated, fails.  With two records sharing identifier `1`, a
successful delete of `1` removes both, so the size drops by two; with no
record carrying the target identifier the size does not drop at all. -/
theorem handleDeleteTask_size_counterexample :
    ((Dashboard.handleDeleteTask
        { tasks := [{ _id := .num 1, title := some "a" }, { _id := .num 1, title := some "b" }]
          showForm := false, editingTask := none, loading := false }
        (.num 1) true (.ok ())).1.tasks.length = 0 ∧
      ¬ ((Dashboard.handleDeleteTask
        { tasks := [{ _id := .num 1, title := some "a" }, { _id := .num 1, title := some "b" }]
          showForm := false, editingTask := none, loading := false }
        (.num 1) true (.ok ())).1.tasks.length + 1 = 2)) ∧
    ((Dashboard.handleDeleteTask
        { tasks := [{ _id := .num 2, title := some "a" }]
          showForm := false, editingTask := none, loading := false }
        (.num 1) true (.ok ())).1.tasks.length = 1 ∧
      ¬ ((Dashboard.handleDeleteTask
        { tasks := [{ _id := .num 2, title := some "a" }]
          showForm := false, editingTask := none, loading := false }
        (.num 1) true (.ok ())).1.tasks.length + 1 = 1)) := by
  decide

/-- C2, amended.  Delete reconciliation with the confirmation accepted and
the request succeeded, on a collection whose identifiers are pairwise
distinct and which holds a record with the target identifier: the target
identifier is absent from the resulting collection, the size decreases by
exactly one, the remaining records are exactly the original records whose
identifier differs from the target, in their original relative order, and
the other state cells are untouched. -/
theorem handleDeleteTask_success_removes_target (st : DashboardState) (taskId : Ident)
    (hdistinct : st.ids.Nodup) (hmem : taskId ∈ st.ids) :
    taskId ∉ (Dashboard.handleDeleteTask st taskId true (.ok ())).1.ids ∧
    (Dashboard.handleDeleteTask st taskId true (.ok ())).1.tasks.length + 1 =
      st.tasks.length ∧
    (∀ task, task ∈ (Dashboard.handleDeleteTask st taskId true (.ok ())).1.tasks ↔
      task ∈ st.tasks ∧ task._id ≠ taskId) ∧
    ((Dashboard.handleDeleteTask st taskId true (.ok ())).1.tasks).Sublist st.tasks ∧
    (Dashboard.handleDeleteTask st taskId true (.ok ())).1.showForm = st.showForm ∧
    (Dashboard.handleDeleteTask st taskId true (.ok ())).1.editingTask = st.editingTask ∧
    (Dashboard.handleDeleteTask st taskId true (.ok ())).1.loading = st.loading := by
  refine ⟨?_, ?_, ?_, ?_, rfl, rfl, rfl⟩
  · simp [Dashboard.handleDeleteTask, DashboardState.ids]
  · exact length_filter_ne_of_nodup taskId st.tasks hdistinct hmem
  · intro task
    simp [Dashboard.handleDeleteTask]
  · simp [Dashboard.handleDeleteTask]

/-- Instance of amended C2: record `b` is deleted from `[a, b, c]`. -/
theorem handleDeleteTask_success_removes_target_witness :
    (Dashboard.handleDeleteTask
        { tasks := [{ _id := .str "a" }, { _id := .str "b" }, { _id := .str "c" }]
          showForm := false, editingTask := none, loading := false }
        (.str "b") true (.ok ())).1.tasks.length + 1 = 3 ∧
    (Dashboard.handleDeleteTask
        { tasks := [{ _id := .str "a" }, { _id := .str "b" }, { _id := .str "c" }]
          showForm := false, editingTask := none, loading := false }
        (.str "b") true (.ok ())).1.tasks = [{ _id := .str "a" }, { _id := .str "c" }] :=
  ⟨(handleDeleteTask_success_removes_target
      { tasks := [{ _id := .str "a" }, { _id := .str "b" }, { _id := .str "c" }]
        showForm := false, editingTask := none, loading := false }
      (.str "b") (by decide) (by decide)).2.1,
    by decide⟩

/-- C3. Create reconciliation: when the identifier of the new record is absent
from the collection, `handleTaskCreated` yields the new record followed by
the old collection, one longer, with the new record at the head and its
identifier occurring exactly once; `showForm` is `false` afterwards, so the
editor is closed when no record is being edited; `editingTask` and `loading`
are untouched. -/
theorem handleTaskCreated_prepends (st : DashboardState) (newTask : Task)
    (hfresh : newTask._id ∉ st.ids) :
    (Dashboard.handleTaskCreated st newTask).tasks = newTask :: st.tasks ∧
    (Dashboard.handleTaskCreated st newTask).tasks.length = st.tasks.length + 1 ∧
    (Dashboard.handleTaskCreated st newTask).tasks.head? = some newTask ∧
    (Dashboard.handleTaskCreated st newTask).ids.count newTask._id = 1 ∧
    (Dashboard.handleTaskCreated st newTask).showForm = false ∧
    (st.editingTask = none →
      Dashboard.editorOpen (Dashboard.handleTaskCreated st newTask) = false) ∧
    (Dashboard.handleTaskCreated st newTask).editingTask = st.editingTask ∧
    (Dashboard.handleTaskCreated st newTask).loading = st.loading := by
  refine ⟨rfl, by simp [Dashboard.handleTaskCreated], rfl, ?_, rfl, ?_, rfl, rfl⟩
  · have h0 : st.ids.count newTask._id = 0 := List.count_eq_zero.2 hfresh
    show (newTask._id :: st.ids).count newTask._id = 1
    rw [List.count_cons_self, h0]
  · intro hnone
    simp [Dashboard.editorOpen, Dashboard.handleTaskCreated, hnone]

/-- Instance of C3: record `n` is created in front of `[a, b]`. -/
theorem handleTaskCreated_prepends_witness :
    (Dashboard.handleTaskCreated
        { tasks := [{ _id := .str "a" }, { _id := .str "b" }]
          showForm := true, editingTask := none, loading := false }
        { _id := .str "n", title := some "new" }).tasks =
      [{ _id := .str "n", title := some "new" }, { _id := .str "a" }, { _id := .str "b" }] ∧
    (Dashboard.handleTaskCreated
        { tasks := [{ _id := .str "a" }, { _id := .str "b" }]
          showForm := true, editingTask := none, loading := false }
        { _id := .str "n", title := some "new" }).showForm = false :=
  ⟨(handleTaskCreated_prepends
      { tasks := [{ _id := .str "a" }, { _id := .str "b" }]
        showForm := true, editingTask := none, loading := false }
      { _id := .str "n", title := some "new" } (by decide)).1,
    (handleTaskCreated_prepends
      { tasks := [{ _id := .str "a" }, { _id := .str "b" }]
        showForm := true, editingTask := none, loading := false }
      { _id := .str "n", title := some "new" } (by decide)).2.2.2.2.1⟩

/-- C4. Status-change reconciliation with the request succeeded: the length
is kept; at every position, a record whose identifier equals the target is
replaced by the record the server returned, whole, and a record with another
identifier stays as it was; the resulting state does not depend on the
requested status; the other state cells are untouched; and the collection
`[{id: 1, status: "pending"}]` with server reply `{id: 1, status:
"completed"}` becomes `[{id: 1, status: "completed"}]`. -/
theorem handleStatusChange_adopts_server_record (st : DashboardState) (taskId : Ident)
    (newStatus : String) (data : Task) :
    (Dashboard.handleStatusChange st taskId newStatus (.ok data)).1.tasks.length =
      st.tasks.length ∧
    (∀ (j : Nat) (task : Task), st.tasks[j]? = some task →
      (task._id = taskId →
        (Dashboard.handleStatusChange st taskId newStatus (.ok data)).1.tasks[j]? =
          some data) ∧
      (task._id ≠ taskId →
        (Dashboard.handleStatusChange st taskId newStatus (.ok data)).1.tasks[j]? =
          some task)) ∧
    (∀ otherStatus : String,
      (Dashboard.handleStatusChange st taskId otherStatus (.ok data)).1 =
        (Dashboard.handleStatusChange st taskId newStatus (.ok data)).1) ∧
    (Dashboard.handleStatusChange st taskId newStatus (.ok data)).1.showForm = st.showForm ∧
    (Dashboard.handleStatusChange st taskId newStatus (.ok data)).1.editingTask =
      st.editingTask ∧
    (Dashboard.handleStatusChange st taskId newStatus (.ok data)).1.loading = st.loading ∧
    (Dashboard.handleStatusChange
        { tasks := [{ _id := .num 1, status := some "pending" }]
          showForm := false, editingTask := none, loading := false }
        (.num 1) "completed" (.ok { _id := .num 1, status := some "completed" })).1.tasks =
      [{ _id := .num 1, status := some "completed" }] := by
  refine ⟨by simp [Dashboard.handleStatusChange], ?_, fun _ => rfl, rfl, rfl, rfl, by decide⟩
  intro j task hj
  have hmap : (Dashboard.handleStatusChange st taskId newStatus (.ok data)).1.tasks[j]? =
      some (if task._id = taskId then data else task) := by
    show (st.tasks.map _)[j]? = _
    rw [getElem?_map_ite, hj]
    rfl
  constructor
  · intro heq
    rw [hmap, if_pos heq]
  · intro hne
    rw [hmap, if_neg hne]

/-- Instance of C4: the server adds a `completedAt` field and it is adopted. -/
theorem handleStatusChange_adopts_server_record_witness :
    (Dashboard.handleStatusChange
        { tasks := [{ _id := .str "a", status := some "pending" },
                    { _id := .str "b", status := some "pending" }]
          showForm := false, editingTask := none, loading := false }
        (.str "b") "completed"
        (.ok { _id := .str "b", status := some "completed",
               extra := [("completedAt", "2024-05-01")] })).1.tasks[1]? =
      some { _id := .str "b", status := some "completed",
             extra := [("completedAt", "2024-05-01")] } :=
  ((handleStatusChange_adopts_server_record
      { tasks := [{ _id := .str "a", status := some "pending" },
                  { _id := .str "b", status := some "pending" }]
        showForm := false, editingTask := none, loading := false }
      (.str "b") "completed"
      { _id := .str "b", status := some "completed",
        extra := [("completedAt", "2024-05-01")] }).2.1 1
      { _id := .str "b", status := some "pending" } (by decide)).1 (by decide)

/-- C5. Delete atomicity: unless the confirmation was accepted and the
request succeeded, `handleDeleteTask` returns the state it was given; when
the confirmation is declined the only effect is the dialog, so no DELETE
request is issued; when the request fails the collection is left as it was. -/
theorem handleDeleteTask_atomic (st : DashboardState) (taskId : Ident) (confirmed : Bool)
    (res : Outcome Unit) :
    (¬ (confirmed = true ∧ res = .ok ()) →
      (Dashboard.handleDeleteTask st taskId confirmed res).1 = st) ∧
    (confirmed = false →
      (Dashboard.handleDeleteTask st taskId confirmed res).2 =
          [.confirm "Are you sure you want to delete this task?"] ∧
        ∀ url, Effect.httpDelete url ∉ (Dashboard.handleDeleteTask st taskId confirmed res).2) ∧
    (∀ error, res = .fail error →
      (Dashboard.handleDeleteTask st taskId confirmed res).1.tasks = st.tasks) := by
  refine ⟨?_, ?_, ?_⟩
  · intro h
    cases confirmed with
    | false => rfl
    | true =>
      cases res with
      | ok u => exact absurd ⟨rfl, rfl⟩ h
      | fail error => rfl
  · intro h
    subst h
    refine ⟨rfl, ?_⟩
    intro url hmem
    simp [Dashboard.handleDeleteTask] at hmem
  · intro error h
    subst h
    cases confirmed <;> rfl

/-- Instance of C5: a declined confirmation and a failed request. -/
theorem handleDeleteTask_atomic_witness :
    (Dashboard.handleDeleteTask
        { tasks := [{ _id := .str "a" }, { _id := .str "b" }]
          showForm := false, editingTask := none, loading := false }
        (.str "a") false (.ok ())).1.tasks = [{ _id := .str "a" }, { _id := .str "b" }] ∧
    (Dashboard.handleDeleteTask
        { tasks := [{ _id := .str "a" }, { _id := .str "b" }]
          showForm := false, editingTask := none, loading := false }
        (.str "a") true (.fail { response := none })).1.tasks =
      [{ _id := .str "a" }, { _id := .str "b" }] :=
  ⟨congrArg DashboardState.tasks
      ((handleDeleteTask_atomic
        { tasks := [{ _id := .str "a" }, { _id := .str "b" }]
          showForm := false, editingTask := none, loading := false }
        (.str "a") false (.ok ())).1 (by decide)),
    (handleDeleteTask_atomic
        { tasks := [{ _id := .str "a" }, { _id := .str "b" }]
          showForm := false, editingTask := none, loading := false }
        (.str "a") true (.fail { response := none })).2.2 { response := none } rfl⟩

/-- C6, as stated, fails.  A successful status change of record `1` whose
server reply carries identifier `2` turns the identifier sequence `[1]` into
`[2]`. -/
theorem handleStatusChange_ids_counterexample :
    (Dashboard.handleStatusChange
        { tasks := [{ _id := .num 1, status := some "pending" }]
          showForm := false, editingTask := none, loading := false }
        (.num 1) "completed" (.ok { _id := .num 2, status := some "completed" })).1.ids =
      [.num 2] ∧
    (Dashboard.handleStatusChange
        { tasks := [{ _id := .num 1, status := some "pending" }]
          showForm := false, editingTask := none, loading := false }
        (.num 1) "completed" (.ok { _id := .num 2, status := some "completed" })).1.ids ≠
      DashboardState.ids
        { tasks := [{ _id := .num 1, status := some "pending" }]
          showForm := false, editingTask := none, loading := false } := by
  decide

/-- C6, amended.  `handleTaskUpdated` leaves the sequence of identifiers of
the collection unchanged for every updated record, and `handleStatusChange`
leaves it unchanged whenever the request fails or the record the server
returned carries the target identifier. -/
theorem update_operations_preserve_ids (st : DashboardState) (updatedTask : Task)
    (taskId : Ident) (newStatus : String) (res : Outcome Task)
    (hsame : ∀ data, res = .ok data → data._id = taskId) :
    (Dashboard.handleTaskUpdated st updatedTask).ids = st.ids ∧
    (Dashboard.handleStatusChange st taskId newStatus res).1.ids = st.ids := by
  constructor
  · exact map_id_map_replace st.tasks updatedTask._id updatedTask rfl
  · cases res with
    | ok data => exact map_id_map_replace st.tasks taskId data (hsame data rfl)
    | fail error => rfl

/-- Instance of amended C6: the server reply carries the target identifier. -/
theorem update_operations_preserve_ids_witness :
    (Dashboard.handleStatusChange
        { tasks := [{ _id := .num 1, status := some "pending" },
                    { _id := .num 2, status := some "pending" }]
          showForm := false, editingTask := none, loading := false }
        (.num 2) "completed" (.ok { _id := .num 2, status := some "completed" })).1.ids =
      [.num 1, .num 2] :=
  (update_operations_preserve_ids
      { tasks := [{ _id := .num 1, status := some "pending" },
                  { _id := .num 2, status := some "pending" }]
        showForm := false, editingTask := none, loading := false }
      { _id := .num 1, title := some "t" } (.num 2) "completed"
      (.ok { _id := .num 2, status := some "completed" })
      (fun _ h => by cases h; rfl)).2

/-- C7, as stated, fails.  Switching modes while the error state is
`"Invalid credentials"` leaves it `"Invalid credentials"`, not empty. -/
theorem toggleMode_error_counterexample :
    (Login.toggleMode
        { isLogin := true
          formData := { username := "ann", email := "", password := "pw" }
          error := "Invalid credentials"
          loading := false }).error = "Invalid credentials" ∧
    (Login.toggleMode
        { isLogin := true
          formData := { username := "ann", email := "", password := "pw" }
          error := "Invalid credentials"
          loading := false }).error ≠ "" := by
  decide

/-- C7, amended.  Switching modes flips the mode and leaves the error state,
the loading flag and the form field values (username, email, password)
unchanged. -/
theorem toggleMode_flips_mode_only (st : LoginState) :
    (Login.toggleMode st).isLogin = !st.isLogin ∧
    (Login.toggleMode st).error = st.error ∧
    (Login.toggleMode st).loading = st.loading ∧
    (Login.toggleMode st).formData.username = st.formData.username ∧
    (Login.toggleMode st).formData.email = st.formData.email ∧
    (Login.toggleMode st).formData.password = st.formData.password :=
  ⟨rfl, rfl, rfl, rfl, rfl, rfl⟩

/-- C8, as stated, fails.  In edit mode a record without a priority pre-fills
the form with an undefined priority, and the payload of the update request
submitted from that form has no priority either.  When such a record also
has a due date that is not a date, the pre-fill throws and sets no form data
at all. -/
theorem TaskForm_edit_priority_counterexample :
    TaskForm.mount (fun _ => none) (some { _id := .str "a", title := some "T" }) =
      some { title := some "T", description := "", priority := none, dueDate := "" } ∧
    (TaskForm.handleSubmit (some { _id := .str "a", title := some "T" })
        { formData := { title := some "T", description := "", priority := none, dueDate := "" }
          loading := false, error := "" }
        (.ok { _id := .str "a", title := some "T" })).2.filterMap Effect.taskBody =
      [{ title := some "T", description := "", priority := none, dueDate := "" }] ∧
    (none : Option String) ≠ some "medium" ∧
    TaskForm.mount (fun _ => none)
        (some { _id := .str "a", title := some "T", dueDate := some "not-a-date" }) = none := by
  decide

/-- C8, amended.  In create mode (`null`) the mounted form has priority
`"medium"`, and the request submitted after changes that do not touch the
priority control carries priority `"medium"`.  In edit mode, for a record
whose due date is absent, empty or converts to a date, the mounted form has
the priority of the record, copied as it is, and the request submitted after
changes that do not touch the priority control carries that same priority.
In edit mode, for a record whose due date is non-empty and does not convert,
the pre-fill throws and sets no form data. -/
theorem TaskForm_priority_after_mount (toISOString : String → Option String)
    (edits : List (String × String)) (res : Outcome Task)
    (huntouched : ∀ edit ∈ edits, edit.1 ≠ "priority") :
    (TaskForm.mount toISOString none = some TaskForm.initialFormData ∧
      TaskForm.initialFormData.priority = some "medium" ∧
      ∃ body,
        (TaskForm.handleSubmit none
            { formData := TaskForm.applyChanges TaskForm.initialFormData edits
              loading := false, error := "" }
            res).2.filterMap Effect.taskBody = [body] ∧
        body.priority = some "medium") ∧
    (∀ t : Task,
      (∀ d, t.dueDate = some d → d ≠ "" → (toISOString d).isSome = true) →
      ∃ fd, TaskForm.mount toISOString (some t) = some fd ∧
        fd.priority = t.priority ∧
        ∃ body,
          (TaskForm.handleSubmit (some t)
              { formData := TaskForm.applyChanges fd edits, loading := false, error := "" }
              res).2.filterMap Effect.taskBody = [body] ∧
          body.priority = t.priority) ∧
    (∀ (t : Task) (d : String), t.dueDate = some d → d ≠ "" → toISOString d = none →
      TaskForm.mount toISOString (some t) = none) := by
  have hsubmit : ∀ (task : Option Task) (fd : TaskFormData), ∃ body,
      (TaskForm.handleSubmit task
          { formData := TaskForm.applyChanges fd edits, loading := false, error := "" }
          res).2.filterMap Effect.taskBody = [body] ∧
      body.priority = fd.priority := by
    intro task fd
    refine ⟨TaskForm.applyChanges fd edits, ?_, applyChanges_priority edits fd huntouched⟩
    cases task <;> cases res <;> rfl
  refine ⟨⟨rfl, rfl, hsubmit none TaskForm.initialFormData⟩, ?_, ?_⟩
  · intro t hdate
    have hdue : ∃ dueDate,
        (match t.dueDate with
          | some d => if d = "" then some "" else TaskForm.dateOnly toISOString d
          | none => some "") = some dueDate := by
      cases hd : t.dueDate with
      | none => exact ⟨"", rfl⟩
      | some d =>
        by_cases hempty : d = ""
        · exact ⟨"", by simp [hempty]⟩
        · obtain ⟨iso, hiso⟩ := Option.isSome_iff_exists.1 (hdate d hd hempty)
          exact ⟨(iso.splitOn "T").headD "", by simp [hempty, TaskForm.dateOnly, hiso]⟩
    obtain ⟨dueDate, hdue⟩ := hdue
    refine ⟨{ title := t.title, description := jsOr t.description "",
              priority := t.priority, dueDate := dueDate }, ?_, rfl, hsubmit (some t) _⟩
    show Option.map _ _ = _
    rw [hdue]
    rfl
  · intro t d hd hempty hnone
    show Option.map _ (match t.dueDate with
      | some d => if d = "" then some "" else TaskForm.dateOnly toISOString d
      | none => some "") = none
    rw [hd]
    simp [hempty, TaskForm.dateOnly, hnone]

/-- Instance of amended C8: create mode with the title typed in, and edit
mode on a record with priority `"high"` and a due date. -/
theorem TaskForm_priority_after_mount_witness :
    (∃ body,
      (TaskForm.handleSubmit none
          { formData := TaskForm.applyChanges TaskForm.initialFormData [("title", "Buy milk")]
            loading := false, error := "" }
          (.ok { _id := .str "n", title := some "Buy milk" })).2.filterMap Effect.taskBody =
        [body] ∧
      body.priority = some "medium") ∧
    (∃ fd,
      TaskForm.mount (fun d => some d)
          (some { _id := .str "a", title := some "T", priority := some "high",
                  dueDate := some "2024-05-01T00:00:00.000Z" }) = some fd ∧
        fd.priority = some "high") := by
  constructor
  · exact (TaskForm_priority_after_mount (fun d => some d) [("title", "Buy milk")]
      (.ok { _id := .str "n", title := some "Buy milk" }) (by decide)).1.2.2
  · obtain ⟨fd, hmount, hprio, _⟩ :=
      (TaskForm_priority_after_mount (fun d => some d) []
        (.ok { _id := .str "a", title := some "T" }) (by decide)).2.1
        { _id := .str "a", title := some "T", priority := some "high",
          dueDate := some "2024-05-01T00:00:00.000Z" }
        (fun _ _ _ => rfl)
    exact ⟨fd, hmount, hprio⟩

/-- C9. Initial load: `fetchTasks`, started from the initial state (empty
collection, `loading = true`), ends with `loading = false` whatever the
outcome; after a failed fetch the collection is empty, after a successful one
it is the response of the server, in the order of the server; `showForm` and
`editingTask` keep their initial values and one GET request is issued. -/
theorem fetchTasks_initial_load :
    DashboardState.initial.loading = true ∧
    (∀ res : Outcome (List Task),
      (Dashboard.fetchTasks DashboardState.initial res).1.loading = false ∧
      (Dashboard.fetchTasks DashboardState.initial res).1.showForm = false ∧
      (Dashboard.fetchTasks DashboardState.initial res).1.editingTask = none ∧
      (Dashboard.fetchTasks DashboardState.initial res).2.filter
          (fun effect => decide (effect = Effect.httpGet "/api/tasks")) =
        [Effect.httpGet "/api/tasks"]) ∧
    (∀ error : AxiosError,
      (Dashboard.fetchTasks DashboardState.initial (.fail error)).1.tasks = []) ∧
    (∀ data : List Task,
      (Dashboard.fetchTasks DashboardState.initial (.ok data)).1.tasks = data) := by
  refine ⟨rfl, ?_, fun _ => rfl, fun _ => rfl⟩
  intro res
  cases res with
  | ok data => exact ⟨rfl, rfl, rfl, by simp [Dashboard.fetchTasks]⟩
  | fail error => exact ⟨rfl, rfl, rfl, by simp [Dashboard.fetchTasks]⟩

/-- C10, as stated, fails.  A failed request whose body carries the message
`""` sets the error state to `'An error occurred'`, not to that message. -/
theorem Login_handleSubmit_empty_message_counterexample :
    AxiosError.serverMessage { response := some { data := some { message := some "" } } } =
      some "" ∧
    (Login.handleSubmit
        { isLogin := true
          formData := { username := "ann", email := "", password := "pw" }
          error := ""
          loading := false }
        (.fail { response := some { data := some { message := some "" } } })).1.error =
      "An error occurred" ∧
    (Login.handleSubmit
        { isLogin := true
          formData := { username := "ann", email := "", password := "pw" }
          error := ""
          loading := false }
        (.fail { response := some { data := some { message := some "" } } })).1.error ≠ "" := by
  decide

/-- C10, amended.  After a failed authentication request `onLogin` is not
invoked; the error state is the message of the server when the failure
carries a non-empty one, and `'An error occurred'` when it carries none or an
empty one; the form fields and the mode are as they were; `loading` is
`false`; and the request went to the endpoint of the current mode with the
form as its body. -/
theorem Login_handleSubmit_failure (st : LoginState) (error : AxiosError) :
    (∀ user token, Effect.onLogin user token ∉ (Login.handleSubmit st (.fail error)).2) ∧
    (∀ m, error.serverMessage = some m → m ≠ "" →
      (Login.handleSubmit st (.fail error)).1.error = m) ∧
    (error.serverMessage = none ∨ error.serverMessage = some "" →
      (Login.handleSubmit st (.fail error)).1.error = "An error occurred") ∧
    (Login.handleSubmit st (.fail error)).1.formData = st.formData ∧
    (Login.handleSubmit st (.fail error)).1.isLogin = st.isLogin ∧
    (Login.handleSubmit st (.fail error)).1.loading = false ∧
    (Login.handleSubmit st (.fail error)).2 =
      [.preventDefault,
       .httpPostAuth (if st.isLogin then "/api/auth/login" else "/api/auth/register")
         st.formData] := by
  refine ⟨?_, ?_, ?_, rfl, rfl, rfl, rfl⟩
  · intro user token hmem
    simp [Login.handleSubmit] at hmem
  · intro m hm hne
    show jsOr error.serverMessage "An error occurred" = m
    rw [hm]
    simp [jsOr, hne]
  · intro h
    show jsOr error.serverMessage "An error occurred" = "An error occurred"
    rcases h with h | h <;> rw [h] <;> rfl

/-- Instance of amended C10: a server message, and a transport failure. -/
theorem Login_handleSubmit_failure_witness :
    (Login.handleSubmit
        { isLogin := true
          formData := { username := "ann", email := "", password := "pw" }
          error := ""
          loading := false }
        (.fail { response := some { data := some { message := some "Invalid credentials" } } })
      ).1.error = "Invalid credentials" ∧
    (Login.handleSubmit
        { isLogin := false
          formData := { username := "ann", email := "a@b.c", password := "pw" }
          error := ""
          loading := false }
        (.fail { response := none })).1.error = "An error occurred" :=
  ⟨(Login_handleSubmit_failure
      { isLogin := true
        formData := { username := "ann", email := "", password := "pw" }
        error := ""
        loading := false }
      { response := some { data := some { message := some "Invalid credentials" } } }).2.1
      "Invalid credentials" (by decide) (by decide),
    (Login_handleSubmit_failure
      { isLogin := false
        formData := { username := "ann", email := "a@b.c", password := "pw" }
        error := ""
        loading := false }
      { response := none }).2.2.1 (Or.inl (by decide))⟩

end TaskManagement
